import Mathlib

set_option linter.unusedVariables false

/-!
Shallow embedding of the mcp-model-server repository (`model/model.py` and
`src/predictor.py`): the deployment-pattern catalog, the repository
classifier, the Dockerfile inspector, the configuration synthesizer, the
resource sizer, the recommendation rules and the two `predict` entry
points (model level and KServe server level).
-/

/-! ## String helpers mirroring the Python primitives used by the source -/

/-- Is `n` a leading segment of `h`? (helper for substring containment). -/
def seqLeads : List Char → List Char → Bool
  | [], _ => true
  | _ :: _, [] => false
  | a :: as, b :: bs => a == b && seqLeads as bs

/-- Does `n` occur contiguously inside `h`? (Python's `in` on strings). -/
def seqContains : List Char → List Char → Bool
  | n, [] => seqLeads n []
  | n, b :: bs => seqLeads n (b :: bs) || seqContains n bs

/-- Python `str.lower()` (ASCII case folding, which covers every string
the source compares). Implemented over the character list so that the
kernel can evaluate it. -/
def lowerStr (s : String) : String :=
  String.mk (s.data.map Char.toLower)

/-- Python `needle.lower() in hay.lower()` as used by the classifier and
the key-file / README keyword checks. -/
def strContains (hay needle : String) : Bool :=
  seqContains (lowerStr needle).data (lowerStr hay).data

/-- Whitespace for Python's `str.split()` / `str.strip()`. -/
def isWs (c : Char) : Bool :=
  c == ' ' || c == '\t' || c == '\r' || c == '\n' || c == '\x0b' || c == '\x0c'

/-- Split a character list at every character satisfying `p`, keeping
empty pieces (the behaviour of splitting on a single separator). -/
def splitPred (p : Char → Bool) : List Char → List (List Char)
  | [] => [[]]
  | c :: rest =>
      let r := splitPred p rest
      if p c then [] :: r
      else
        match r with
        | [] => [[c]]
        | h :: t => (c :: h) :: t

/-- Python `str.split()` with no argument: split on whitespace runs,
dropping empty pieces. -/
def splitWs (s : String) : List String :=
  ((splitPred isWs s.data).map String.mk).filter (fun piece => piece ≠ "")

/-- Python `s.split(sep)` for a single-character separator (the source
splits on newline and on the slash). -/
def splitOnChar (sep : Char) (s : String) : List String :=
  (splitPred (fun c => c == sep) s.data).map String.mk

/-- Python `str.strip()`: drop whitespace from both ends. -/
def pyStrip (s : String) : String :=
  String.mk (((s.data.dropWhile isWs).reverse.dropWhile isWs).reverse)

/-- Python `s.startswith(pre)`. -/
def strStarts (s pre : String) : Bool :=
  seqLeads pre.data s.data

/-- Python `s.endswith(suf)`. -/
def strEnds (s suf : String) : Bool :=
  seqLeads suf.data.reverse s.data.reverse

/-- Python `s.split(sep)[0]` for a non-empty separator: the characters
before the first occurrence of `sep` (the whole string when absent). The
source only ever takes element `[0]` of `split('==')`. -/
def takeBeforeSeq (sep : List Char) : List Char → List Char
  | [] => []
  | c :: rest =>
      if sep ≠ [] ∧ seqLeads sep (c :: rest) then []
      else c :: takeBeforeSeq sep rest

/-- `s.split(sep)[0]` packaged on strings. -/
def pySplitHead (s sep : String) : String :=
  String.mk (takeBeforeSeq sep.data s.data)

/-- Fuel-driven core of Python `str.replace` (left-to-right,
non-overlapping, replace all occurrences). -/
def replaceFuel (sep rep : List Char) : Nat → List Char → List Char
  | 0, l => l
  | _ + 1, [] => []
  | fuel + 1, c :: rest =>
      if sep ≠ [] ∧ seqLeads sep (c :: rest) then
        rep ++ replaceFuel sep rep fuel (List.drop (sep.length - 1) rest)
      else
        c :: replaceFuel sep rep fuel rest

/-- Python `s.replace(sep, rep)`. -/
def pyReplace (s sep rep : String) : String :=
  String.mk (replaceFuel sep.data rep.data s.data.length s.data)

/-- Decimal rendering of a natural number (Python `str(int)` inside the
source's f-strings), in a form the kernel can evaluate. -/
def natDigitsRev : Nat → Nat → List Char
  | 0, _ => []
  | _ + 1, 0 => []
  | fuel + 1, n => Char.ofNat (48 + n % 10) :: natDigitsRev fuel (n / 10)

/-- `str(n)` for a natural number. -/
def showNat (n : Nat) : String :=
  if n = 0 then "0" else String.mk (natDigitsRev n n).reverse

/-- Numeric value of a digit list (most significant first). -/
def digitsToNat (ds : List Char) : Nat :=
  ds.foldl (fun n c => 10 * n + (c.toNat - 48)) 0

/-- All characters are decimal digits. -/
def allDigits (ds : List Char) : Bool :=
  ds.all (fun c => c.isDigit)

/-- Python `int(token)` on a whitespace-free token: an optional sign
followed by at least one decimal digit; anything else raises `ValueError`
(modelled as `none`). -/
def pyInt (s : String) : Option Int :=
  match s.data with
  | '+' :: rest =>
      if allDigits rest ∧ rest ≠ [] then some (Int.ofNat (digitsToNat rest)) else none
  | '-' :: rest =>
      if allDigits rest ∧ rest ≠ [] then some (-(Int.ofNat (digitsToNat rest))) else none
  | ds =>
      if allDigits ds ∧ ds ≠ [] then some (Int.ofNat (digitsToNat ds)) else none

/-! ## Data model -/

/-- One `requests`/`limits` entry: Kubernetes quantity strings, exactly as
the source stores them. -/
structure ResPair where
  cpu : String
  memory : String
deriving DecidableEq

/-- A resource profile: requests and limits. -/
structure Resources where
  requests : ResPair
  limits : ResPair
deriving DecidableEq

/-- One entry of `_load_deployment_patterns`: indicators, default port,
health path, base image, build/start commands, optional static-site flag
and optional resource profile. -/
structure Pattern where
  indicators : List String
  port : Nat
  healthPath : String
  baseImage : String
  buildCommand : String
  startCommand : String
  staticSite : Bool := false
  resources : Option Resources := none
deriving DecidableEq

/-- The `node_js` entry of the pattern table (also the fallback used by
`generate_deployment_config` and `_generate_dockerfile`). -/
def nodeJsPattern : Pattern :=
  { indicators := ["package.json", "node_modules", "app.js", "server.js"]
    port := 3000
    healthPath := "/health"
    baseImage := "node:18-alpine"
    buildCommand := "npm install && npm run build"
    startCommand := "npm start" }

/-- `_load_deployment_patterns`: the fixed literal pattern table, in
insertion (registration) order. -/
def deploymentPatterns : List (String × Pattern) :=
  [ ("node_js", nodeJsPattern)
  , ("python_flask",
      { indicators := ["requirements.txt", "app.py", "wsgi.py", "flask"]
        port := 5000
        healthPath := "/health"
        baseImage := "python:3.11-slim"
        buildCommand := "pip install -r requirements.txt"
        startCommand := "python app.py" })
  , ("python_django",
      { indicators := ["requirements.txt", "manage.py", "settings.py", "django"]
        port := 8000
        healthPath := "/health/"
        baseImage := "python:3.11-slim"
        buildCommand := "pip install -r requirements.txt && python manage.py collectstatic --noinput"
        startCommand := "python manage.py runserver 0.0.0.0:8000" })
  , ("java_spring",
      { indicators := ["pom.xml", "build.gradle", "src/main/java", "spring"]
        port := 8080
        healthPath := "/actuator/health"
        baseImage := "openjdk:17-jre-slim"
        buildCommand := "mvn clean package -DskipTests"
        startCommand := "java -jar target/*.jar" })
  , ("go",
      { indicators := ["go.mod", "main.go", "*.go"]
        port := 8080
        healthPath := "/health"
        baseImage := "golang:1.21-alpine"
        buildCommand := "go mod download && go build -o app ."
        startCommand := "./app" })
  , ("react",
      { indicators := ["package.json", "src/App.js", "public/index.html", "react"]
        port := 80
        healthPath := "/"
        baseImage := "nginx:alpine"
        buildCommand := "npm install && npm run build"
        startCommand := "nginx -g 'daemon off;'"
        staticSite := true })
  , ("machine_learning",
      { indicators := ["requirements.txt", "model.pkl", "*.ipynb", "tensorflow", "pytorch", "scikit-learn"]
        port := 8000
        healthPath := "/health"
        baseImage := "python:3.11-slim"
        buildCommand := "pip install -r requirements.txt"
        startCommand := "python serve.py"
        resources := some
          { requests := { cpu := "500m", memory := "1Gi" }
            limits := { cpu := "2000m", memory := "4Gi" } } })
  ]

/-- Python `dict.get(key)` on the pattern table (insertion-ordered dict). -/
def dictGet (l : List (String × Pattern)) (k : String) : Option Pattern :=
  (l.find? (fun kv => kv.1 == k)).map (fun kv => kv.2)

/-! ## Classifier (`_detect_application_type`) -/

/-- Score of one pattern against the flattened file-name list: the number
of indicators that occur (case-insensitively) as a substring of at least
one file name. -/
def indicatorScore (files : List String) (p : Pattern) : Nat :=
  p.indicators.foldl
    (fun sc ind => if files.any (fun f => strContains f ind) then sc + 1 else sc) 0

/-- The `scores` dict built by `_detect_application_type`, in pattern
registration order. The file structure is consumed only through
`_get_all_files`, so it is modelled as the flattened file-name list. -/
def scoreList (files : List String) : List (String × Nat) :=
  deploymentPatterns.map (fun kv => (kv.1, indicatorScore files kv.2))

/-- One step of Python's `max(..., key=lambda x: x[1])`: keep the incumbent
unless the challenger is strictly greater (first maximum wins). -/
def pickMax (b c : String × Nat) : String × Nat :=
  if c.2 > b.2 then c else b

/-- `_detect_application_type`: the pattern with the highest score, first
registration winning ties; `"generic"` when the best score is zero. -/
def detectApplicationType (files : List String) : String :=
  match scoreList files with
  | [] => "generic"
  | x :: xs =>
      let best := xs.foldl pickMax x
      if best.2 > 0 then best.1 else "generic"

/-- The maximum indicator score over the whole pattern table (used to state
the classifier's specification). -/
def maxScore (files : List String) : Nat :=
  ((scoreList files).map (fun q => q.2)).foldr Nat.max 0

/-! ## Dockerfile inspection (`_analyze_dockerfile`) -/

/-- The `analysis` dict of `_analyze_dockerfile`. -/
structure DockerAnalysis where
  has_dockerfile : Bool
  base_image : Option String
  exposed_ports : List Int
  custom_dockerfile : Bool
deriving DecidableEq

/-- The initial `analysis` dict (also the result when the Dockerfile read
itself fails). -/
def emptyDockerAnalysis : DockerAnalysis :=
  { has_dockerfile := false
    base_image := none
    exposed_ports := []
    custom_dockerfile := false }

/-- The dict state right after a successful read, before the line loop. -/
def foundDockerInit : DockerAnalysis :=
  { emptyDockerAnalysis with has_dockerfile := true, custom_dockerfile := true }

/-- One iteration of the `FROM`/`EXPOSE` line loop. `none` models the
exception (`IndexError` on a missing token, `ValueError` from `int`) that
aborts the loop; `some` carries the updated dict. -/
def stepLine (a : DockerAnalysis) (line : String) : Option DockerAnalysis :=
  if strStarts (pyStrip line) "FROM" then
    match (splitWs line)[1]? with
    | none => none
    | some tok => some { a with base_image := some tok }
  else if strStarts (pyStrip line) "EXPOSE" then
    match (splitWs line)[1]? with
    | none => none
    | some tok =>
        match pyInt tok with
        | none => none
        | some n => some { a with exposed_ports := a.exposed_ports ++ [n] }
  else
    some a

/-- The line loop of `_analyze_dockerfile`: an exception at any line
silently stops the loop, keeping the dict state accumulated so far (the
surrounding `try`/`except: pass`). -/
def parseDockerLines : List String → DockerAnalysis → DockerAnalysis
  | [], a => a
  | l :: rest, a =>
      match stepLine a l with
      | none => a
      | some a2 => parseDockerLines rest a2

/-- `_analyze_dockerfile`: input is the outcome of reading `Dockerfile`
(`none` when `get_contents` raised, `some content` when it succeeded). -/
def analyzeDockerfile : Option String → DockerAnalysis
  | none => emptyDockerAnalysis
  | some content => parseDockerLines (splitOnChar '\n' content) foundDockerInit

/-! ## Dependency analysis (`_analyze_dependencies`) -/

/-- The `dependencies` dict of `_analyze_dependencies`. -/
structure DependencyProfile where
  package_managers : List String
  dependencies : List String
  dev_dependencies : List String
  security_vulnerabilities : List String
deriving DecidableEq

/-- The initial (and worst-case fallback) dependency dict. -/
def emptyDependencies : DependencyProfile :=
  { package_managers := []
    dependencies := []
    dev_dependencies := []
    security_vulnerabilities := [] }

/-- The decoded `package.json` as the collaborator hands it over: the key
lists of its `dependencies` and `devDependencies` maps (the JSON decode
itself is collaborator work). -/
structure PackageJson where
  dependencies : List String
  devDependencies : List String
deriving DecidableEq

/-- The repository as seen through the GitHub collaborator: flattened file
listing, metadata, and a reader for individual files (`none` models a
raised read error). -/
structure GithubRepo where
  files : List String
  size : Nat
  language : Option String
  topics : List String
  getFile : String → Option String
  packageJson : Option PackageJson
  readme : Option String

/-- `_analyze_dependencies`, dispatching on the detected application type;
every read failure degrades to the partial dict built so far. -/
def analyzeDependencies (repo : GithubRepo) (appType : String) : DependencyProfile :=
  if appType = "node_js" ∨ appType = "react" then
    match repo.packageJson with
    | none => emptyDependencies
    | some pj =>
        { emptyDependencies with
            dependencies := pj.dependencies
            dev_dependencies := pj.devDependencies
            package_managers := ["npm"] }
  else if appType = "python_flask" ∨ appType = "python_django" ∨ appType = "machine_learning" then
    match repo.getFile "requirements.txt" with
    | some txt =>
        { emptyDependencies with
            dependencies :=
              ((splitOnChar '\n' txt).filter (fun dep => pyStrip dep ≠ "")).map
                (fun dep => pyStrip (pySplitHead dep "=="))
            package_managers := ["pip"] }
    | none =>
        match repo.getFile "Pipfile" with
        | some _ => { emptyDependencies with package_managers := ["pipenv"] }
        | none => emptyDependencies
  else if appType = "java_spring" then
    match repo.getFile "pom.xml" with
    | some _ => { emptyDependencies with package_managers := ["maven"] }
    | none =>
        match repo.getFile "build.gradle" with
        | some _ => { emptyDependencies with package_managers := ["gradle"] }
        | none => emptyDependencies
  else if appType = "go" then
    match repo.getFile "go.mod" with
    | some _ => { emptyDependencies with package_managers := ["go-modules"] }
    | none => emptyDependencies
  else
    emptyDependencies

/-! ## Documentation (`_get_documentation`) -/

/-- The `docs` dict of `_get_documentation`. -/
structure Documentation where
  readme : Option String
  has_docs : Bool
  setup_instructions : Bool
deriving DecidableEq

/-- `_get_documentation`: truncate the README to its first 1000 characters
and look for setup keywords; a failed README fetch leaves the defaults. -/
def getDocumentation (repo : GithubRepo) : Documentation :=
  match repo.readme with
  | none => { readme := none, has_docs := false, setup_instructions := false }
  | some r =>
      let txt := String.mk (r.data.take 1000)
      { readme := some txt
        has_docs := false
        setup_instructions :=
          ["install", "setup", "run", "start"].any (fun w => strContains txt w) }

/-! ## Analysis result -/

/-- The dict returned by `analyze_repository`. The `file_structure` entry
is consumed only through `_get_all_files`, so it is carried as the
flattened file-name list. -/
structure Analysis where
  repository : String
  branch : String
  applicationType : String
  files : List String
  dependencies : DependencyProfile
  documentation : Documentation
  dockerAnalysis : DockerAnalysis
  size : Nat
  language : Option String
  topics : List String
deriving DecidableEq

/-! ## Resource sizing (`_calculate_resources`) -/

/-- The fixed default profile used whenever a pattern declares no
`resources` entry (shared by `_generate_deployment_yaml` and
`_calculate_resources`). -/
def defaultResources : Resources :=
  { requests := { cpu := "100m", memory := "128Mi" }
    limits := { cpu := "500m", memory := "512Mi" } }

/-- `_calculate_resources`: start from the pattern's declared profile (or
the default), then apply the repository-size rule and the dependency-count
rule, each overwriting its fields with fixed constants. -/
def calculateResources (analysis : Analysis) (p : Pattern) : Resources :=
  let base := p.resources.getD defaultResources
  let base :=
    if analysis.size > 100000 then
      { base with
          requests := { base.requests with memory := "256Mi" }
          limits := { base.limits with memory := "1Gi" } }
    else base
  let base :=
    if analysis.dependencies.dependencies.length > 50 then
      { base with
          requests := { base.requests with cpu := "200m" }
          limits := { base.limits with cpu := "1000m" } }
    else base
  base

/-- The pattern object after `_calculate_resources` ran on it: in the
source, `base_resources` aliases `pattern['resources']` when the pattern
declares one, so the in-place field assignments land in the pattern (and
hence the catalog); a pattern without a declared profile starts from a
fresh literal and is left untouched. -/
def patternAfterCalc (analysis : Analysis) (p : Pattern) : Pattern :=
  match p.resources with
  | some _ => { p with resources := some (calculateResources analysis p) }
  | none => p

/-- The key of the catalog entry whose pattern object
`generate_deployment_config` resolves (and therefore aliases): the
classified id when it is a key, otherwise the `node_js` entry. -/
def aliasedKey (appType : String) : String :=
  if (dictGet deploymentPatterns appType).isSome then appType else "node_js"

/-- The process-wide `self.deployment_patterns` after one request computed
its resource estimate: the aliased entry holds the possibly-mutated
pattern object. -/
def catalogAfterCalc (analysis : Analysis) : List (String × Pattern) :=
  deploymentPatterns.map
    (fun kv =>
      if kv.1 = aliasedKey analysis.applicationType then
        (kv.1, patternAfterCalc analysis kv.2)
      else kv)

/-- Numeric value in millicores of a CPU quantity string (`"200m"`,
`"1"`); interpretation used to compare the source's quantity strings. -/
def cpuMilli (s : String) : Nat :=
  if strEnds s "m" then digitsToNat (s.data.dropLast) else 1000 * digitsToNat s.data

/-- Numeric value in mebibytes of a memory quantity string (`"256Mi"`,
`"1Gi"`). -/
def memMi (s : String) : Nat :=
  if strEnds s "Gi" then 1024 * digitsToNat (s.data.dropLast.dropLast)
  else if strEnds s "Mi" then digitsToNat (s.data.dropLast.dropLast)
  else 0

/-! ## Manifest synthesis (`generate_deployment_config` and helpers) -/

/-- The workload (Deployment) manifest fields the source fills in. -/
structure DeploymentManifest where
  name : String
  nspace : String
  appTypeLabel : String
  replicas : Nat
  image : String
  containerPort : Nat
  envPort : String
  envNodeEnv : String
  resources : Resources
  readinessPath : String
  readinessPort : Nat
  readinessInitialDelay : Nat
  readinessPeriod : Nat
  livenessPath : String
  livenessPort : Nat
  livenessInitialDelay : Nat
  livenessPeriod : Nat
deriving DecidableEq

/-- The Service manifest fields. -/
structure ServiceManifest where
  name : String
  nspace : String
  port : Nat
  targetPort : Nat
  serviceType : String
deriving DecidableEq

/-- The OpenShift Route manifest fields. -/
structure RouteManifest where
  name : String
  nspace : String
  toService : String
  targetPort : Nat
  tlsTermination : String
  insecurePolicy : String
deriving DecidableEq

/-- The GitHub Actions workflow, carried structurally (name, triggers,
checkout step and the parameters embedded in the curl payload of the run
step). -/
structure PipelineDescriptor where
  name : String
  onPushBranches : List String
  workflowDispatch : Bool
  usesCheckout : Bool
  runNamespace : String
  deployImmediately : Bool
deriving DecidableEq

/-- `_generate_deployment_yaml`. -/
def generateDeploymentYaml (analysis : Analysis) (p : Pattern)
    (appName nspace : String) : DeploymentManifest :=
  let resources := p.resources.getD defaultResources
  let resources :=
    if analysis.applicationType = "machine_learning" then
      { requests := { cpu := "500m", memory := "1Gi" }
        limits := { cpu := "2000m", memory := "4Gi" } }
    else resources
  { name := appName
    nspace := nspace
    appTypeLabel := analysis.applicationType
    replicas := 1
    image := "quay.io/your-org/" ++ appName ++ ":latest"
    containerPort := p.port
    envPort := showNat p.port
    envNodeEnv := "production"
    resources := resources
    readinessPath := p.healthPath
    readinessPort := p.port
    readinessInitialDelay := 10
    readinessPeriod := 5
    livenessPath := p.healthPath
    livenessPort := p.port
    livenessInitialDelay := 30
    livenessPeriod := 10 }

/-- `_generate_service_yaml`. -/
def generateServiceYaml (appName nspace : String) (p : Pattern) : ServiceManifest :=
  { name := appName
    nspace := nspace
    port := 80
    targetPort := p.port
    serviceType := "ClusterIP" }

/-- `_generate_route_yaml`. -/
def generateRouteYaml (appName nspace : String) : RouteManifest :=
  { name := appName
    nspace := nspace
    toService := appName
    targetPort := 80
    tlsTermination := "edge"
    insecurePolicy := "Redirect" }

/-- `_generate_dockerfile`: the source builds a dict of three f-string
templates, all evaluated eagerly with the one resolved pattern, so each
template's `pattern['start_command'].split()[1]` access must succeed no
matter which key is later selected; a start command with fewer than two
tokens raises `IndexError` (modelled as `none`). Selection falls back to
the `node_js` template for any other application type. -/
def generateDockerfile (appType : String) (p : Pattern) : Option String :=
  let toks := splitWs p.startCommand
  match toks[0]?, toks[1]? with
  | some t0, some t1 =>
      let nodeTemplate :=
        "FROM " ++ p.baseImage ++ "\nWORKDIR /app\nCOPY package*.json ./\nRUN " ++
          p.buildCommand ++ "\nCOPY . .\nEXPOSE " ++ showNat p.port ++
          "\nUSER 1001\nCMD [\"" ++ t0 ++ "\", \"" ++ t1 ++ "\"]"
      let flaskTemplate :=
        "FROM " ++ p.baseImage ++ "\nWORKDIR /app\nCOPY requirements.txt .\nRUN " ++
          p.buildCommand ++ "\nCOPY . .\nEXPOSE " ++ showNat p.port ++
          "\nUSER 1001\nCMD [\"" ++ t0 ++ "\", \"" ++ t1 ++ "\"]"
      let reactTemplate :=
        "FROM node:18-alpine as build\nWORKDIR /app\nCOPY package*.json ./\n" ++
          "RUN npm ci --only=production\nCOPY . .\nRUN npm run build\n\nFROM " ++
          p.baseImage ++ "\nCOPY --from=build /app/build /usr/share/nginx/html\n" ++
          "COPY --from=build /app/nginx.conf /etc/nginx/nginx.conf\nEXPOSE " ++
          showNat p.port ++ "\nCMD [\"" ++ t0 ++ "\", \"" ++
          String.intercalate " " (toks.drop 1) ++ "\"]"
      let templates :=
        [("node_js", nodeTemplate), ("python_flask", flaskTemplate), ("react", reactTemplate)]
      some ((((templates.find? (fun kv => kv.1 == appType)).map (fun kv => kv.2)).getD
        nodeTemplate))
  | _, _ => none

/-- `_generate_github_actions`. -/
def generateGithubActions (analysis : Analysis) (appName nspace : String) :
    PipelineDescriptor :=
  { name := "Deploy " ++ appName
    onPushBranches := ["main"]
    workflowDispatch := true
    usesCheckout := true
    runNamespace := nspace
    deployImmediately := true }

/-- App name derivation in `generate_deployment_config`:
`repository.split('/')[-1].lower().replace('_', '-')` (the replace acts on
single-character strings, hence the character map). -/
def appNameOf (repository : String) : String :=
  String.mk ((lowerStr ((splitOnChar '/' repository).getLastD "")).data.map
    (fun c => if c == '_' then '-' else c))

/-- The `config` dict of `generate_deployment_config`, plus the
`deployment_result` entry `predict` may attach afterwards. -/
structure Config where
  appName : String
  nspace : String
  applicationType : String
  deployment : DeploymentManifest
  service : ServiceManifest
  route : RouteManifest
  dockerfile : Option String
  githubActions : PipelineDescriptor
  resourcesNeeded : Resources
  deploymentResult : Option String := none
deriving DecidableEq

/-- `generate_deployment_config`. The result is `none` exactly when the
dockerfile generation raises (`IndexError` escaping to `predict`); the
`deployment_type` argument is accepted and ignored, as in the source. -/
def generateDeploymentConfig (analysis : Analysis) (nspace deploymentType : String) :
    Option Config :=
  let appType := analysis.applicationType
  let appName := appNameOf analysis.repository
  let pattern := (dictGet deploymentPatterns appType).getD nodeJsPattern
  let dockerfileEntry : Option (Option String) :=
    if analysis.dockerAnalysis.has_dockerfile then some none
    else
      match generateDockerfile appType pattern with
      | some txt => some (some txt)
      | none => none
  match dockerfileEntry with
  | none => none
  | some df =>
      some
        { appName := appName
          nspace := nspace
          applicationType := appType
          deployment := generateDeploymentYaml analysis pattern appName nspace
          service := generateServiceYaml appName nspace pattern
          route := generateRouteYaml appName nspace
          dockerfile := df
          githubActions := generateGithubActions analysis appName nspace
          resourcesNeeded := calculateResources analysis pattern }

/-! ## Recommendations (`_generate_recommendations`) -/

/-- `_generate_recommendations`: the stateless rule list, in declaration
order. -/
def generateRecommendations (analysis : Analysis) : List String :=
  (if analysis.dockerAnalysis.has_dockerfile = false then
    ["Consider adding a Dockerfile for consistent deployments"] else []) ++
  (if analysis.documentation.setup_instructions = false then
    ["Add setup instructions to README for better maintainability"] else []) ++
  (if analysis.applicationType = "generic" then
    ["Could not detect application type - manual configuration may be needed"] else []) ++
  (if analysis.dependencies.dependencies.length > 100 then
    ["Large number of dependencies detected - consider optimization"] else []) ++
  (if analysis.applicationType = "machine_learning" then
    ["ML workload detected - consider GPU resources for training"] else [])

/-! ## Client setup and the model-level `predict` pipeline -/

/-- A collaborator call made during a request (used to state that the
validation failure happens before any collaborator is invoked). -/
inductive Event where
  | getRepo (path : String)
  | getContents (path : String)
  | getFile (path : String)
  | getReadme
  | getTopics
deriving DecidableEq

/-- The GitHub client capability: resolve a repository path. -/
structure GithubClient where
  getRepo : String → Except String GithubRepo

/-- The mutable fields of `MCPDeploymentModel` relevant to the pipeline
(the pattern table itself is the module-level `deploymentPatterns`). -/
structure ModelState where
  githubClient : Option GithubClient
  k8sClient : Option Unit

/-- The body of `setup_clients` before its own `except` handler: the very
first statement references the name `os`, which the module never imports,
so a `NameError` is raised before any client is assigned. -/
def setupClientsBody (s : ModelState) : Except String ModelState :=
  Except.error "name 'os' is not defined"

/-- `setup_clients`: the handler logs the error and leaves both clients as
they were. -/
def setupClients (s : ModelState) : ModelState :=
  match setupClientsBody s with
  | Except.ok s2 => s2
  | Except.error _ => s

/-- The state produced by `MCPDeploymentModel.__init__`: clients start as
`None` and `setup_clients` runs once. -/
def initModel : ModelState :=
  setupClients { githubClient := none, k8sClient := none }

/-- `analyze_repository`: returns the analysis dict or the raised
exception, together with the collaborator calls made. With
`github_client = None`, the attribute access `self.github_client.get_repo`
raises before any collaborator is reached. -/
def analyzeRepository (st : ModelState) (url branch : String) :
    Except String Analysis × List Event :=
  let repoPath := pyReplace (pyReplace url "https://github.com/" "") ".git" ""
  match st.githubClient with
  | none => (Except.error "'NoneType' object has no attribute 'get_repo'", [])
  | some gh =>
      match gh.getRepo repoPath with
      | Except.error e => (Except.error e, [Event.getRepo repoPath])
      | Except.ok repo =>
          let appType := detectApplicationType repo.files
          (Except.ok
            { repository := repoPath
              branch := branch
              applicationType := appType
              files := repo.files
              dependencies := analyzeDependencies repo appType
              documentation := getDocumentation repo
              dockerAnalysis := analyzeDockerfile (repo.getFile "Dockerfile")
              size := repo.size
              language := repo.language
              topics := repo.topics },
           [Event.getRepo repoPath, Event.getContents "", Event.getReadme,
            Event.getFile "Dockerfile", Event.getTopics])

/-- One request instance as `MCPDeploymentModel.predict` reads it:
`request_data.get(...)` yields `none` for a missing key. -/
structure Request where
  repositoryUrl : Option String
  branch : Option String
  nspace : Option String
  deploymentType : Option String
  deployImmediately : Option Bool
deriving DecidableEq

/-- The model-level response dict: the success shape or the uniform error
shape. -/
inductive ModelResponse where
  | success (analysis : Analysis) (config : Config) (recommendations : List String)
  | error (msg : String) (recommendations : List String)
deriving DecidableEq

/-- Is a response the error shape? -/
def isErrorShaped : ModelResponse → Bool
  | ModelResponse.error _ _ => true
  | ModelResponse.success _ _ _ => false

/-- The uniform error response built by `predict`'s handler. -/
def errorResp (msg : String) : ModelResponse :=
  ModelResponse.error msg ["Check repository URL and permissions"]

/-- `deploy_application`: the namespace/apply helpers are `pass` stubs, so
it always reports the deployed status string (modelled by its `status`
field attached to the config). -/
def deployApplication (cfg : Config) : String :=
  "deployed"

/-- `MCPDeploymentModel.predict`: validation, analysis, synthesis,
optional deploy, with every exception converted to the uniform error
response; also returns the collaborator calls made. -/
def predict (st : ModelState) (req : Request) : ModelResponse × List Event :=
  match req.repositoryUrl with
  | none => (errorResp "repository_url is required", [])
  | some url =>
      if url = "" then (errorResp "repository_url is required", [])
      else
        match analyzeRepository st url (req.branch.getD "main") with
        | (Except.error e, tr) => (errorResp e, tr)
        | (Except.ok analysis, tr) =>
            match generateDeploymentConfig analysis (req.nspace.getD "default")
                (req.deploymentType.getD "auto") with
            | none => (errorResp "list index out of range", tr)
            | some cfg =>
                let cfg2 :=
                  if req.deployImmediately.getD false then
                    { cfg with deploymentResult := some (deployApplication cfg) }
                  else cfg
                (ModelResponse.success analysis cfg2 (generateRecommendations analysis), tr)

/-! ## Server-level `predict` (`src/predictor.py`) -/

/-- A JSON-ish value at the granularity the server response needs: string
leaves and the list of per-instance model responses. -/
inductive JVal where
  | str (s : String)
  | responses (l : List ModelResponse)
deriving DecidableEq

/-- `MCPModelPredictor.predict`: extract `instances` (defaulting to the
empty list when the key is missing), short-circuit with the bare
`{"error": ...}` object when there are none, otherwise wrap the
per-instance model predictions. The result is the response object's
key/value list. -/
def serverPredict (st : ModelState) (instances : Option (List Request)) :
    List (String × JVal) :=
  let insts := instances.getD []
  if insts.isEmpty then [("error", JVal.str "No instances provided")]
  else [("predictions", JVal.responses (insts.map (fun i => (predict st i).1)))]

/-! ## Concrete fixtures used by the theorems -/

/-- An analysis of a machine-learning repository above the size
threshold. -/
def mlAnalysis : Analysis :=
  { repository := "acme/ml_app"
    branch := "main"
    applicationType := "machine_learning"
    files := ["requirements.txt", "model.pkl"]
    dependencies := emptyDependencies
    documentation := { readme := none, has_docs := false, setup_instructions := false }
    dockerAnalysis := emptyDockerAnalysis
    size := 150000
    language := none
    topics := [] }

/-- The catalog's `machine_learning` pattern. -/
def mlPattern : Pattern :=
  (dictGet deploymentPatterns "machine_learning").getD nodeJsPattern

/-- An analysis of a Go repository without a Dockerfile. -/
def goAnalysis : Analysis :=
  { repository := "acme/goapp"
    branch := "main"
    applicationType := "go"
    files := ["go.mod", "main.go"]
    dependencies := emptyDependencies
    documentation := { readme := none, has_docs := false, setup_instructions := false }
    dockerAnalysis := emptyDockerAnalysis
    size := 500
    language := none
    topics := [] }

/-- End-to-end scenario A: the file set `{package.json, server.js}` with
no language tag and no Dockerfile. -/
def scenarioAAnalysis : Analysis :=
  { repository := "acme/webapp"
    branch := "main"
    applicationType := detectApplicationType ["package.json", "server.js"]
    files := ["package.json", "server.js"]
    dependencies := emptyDependencies
    documentation := { readme := none, has_docs := false, setup_instructions := false }
    dockerAnalysis := analyzeDockerfile none
    size := 100
    language := none
    topics := [] }

/-- An analysis classified with the sentinel id `generic` (empty file
set), without a Dockerfile. -/
def genericAnalysis : Analysis :=
  { repository := "acme/mystery_app"
    branch := "main"
    applicationType := detectApplicationType []
    files := []
    dependencies := emptyDependencies
    documentation := { readme := none, has_docs := false, setup_instructions := false }
    dockerAnalysis := analyzeDockerfile none
    size := 100
    language := none
    topics := [] }

/-- A large Flask repository (size rule fires, dependency rule does not). -/
def flaskAnalysis : Analysis :=
  { repository := "acme/flask_svc"
    branch := "main"
    applicationType := "python_flask"
    files := ["requirements.txt", "app.py"]
    dependencies := emptyDependencies
    documentation := { readme := none, has_docs := false, setup_instructions := false }
    dockerAnalysis := emptyDockerAnalysis
    size := 150000
    language := none
    topics := [] }

/-- The Dockerfile text the `node_js` template renders for the `node_js`
pattern. -/
def nodeJsDockerfileText : String :=
  "FROM node:18-alpine\nWORKDIR /app\nCOPY package*.json ./\nRUN npm install && npm run build\nCOPY . .\nEXPOSE 3000\nUSER 1001\nCMD [\"npm\", \"start\"]"

/-- The catalog's `python_flask` pattern (declares no resource profile). -/
def flaskPattern : Pattern :=
  (dictGet deploymentPatterns "python_flask").getD nodeJsPattern

/-- A request with every key missing. -/
def emptyRequest : Request :=
  { repositoryUrl := none
    branch := none
    nspace := none
    deploymentType := none
    deployImmediately := none }

/-- A request carrying only a repository URL. -/
def urlRequest : Request :=
  { emptyRequest with repositoryUrl := some "https://github.com/acme/app" }

/-! ## General lemmas about the classifier fold (Python max with key, first maximum wins) -/

theorem pickMax_foldl_mem (l : List (String × Nat)) :
    ∀ x : String × Nat, l.foldl pickMax x ∈ x :: l := by
  induction l with
  | nil => intro x; simp
  | cons c t ih =>
    intro x
    simp only [List.foldl_cons]
    rcases List.mem_cons.mp (ih (pickMax x c)) with h1 | h1
    · rw [h1]
      unfold pickMax
      split
      · simp
      · simp
    · simp [List.mem_cons_of_mem, h1]

theorem pickMax_foldl_le (l : List (String × Nat)) :
    ∀ (x p : String × Nat), p ∈ x :: l → p.2 ≤ (l.foldl pickMax x).2 := by
  induction l with
  | nil =>
    intro x p hp
    simp at hp
    simp [hp]
  | cons c t ih =>
    intro x p hp
    simp only [List.foldl_cons]
    have hx : x.2 ≤ (pickMax x c).2 := by unfold pickMax; split <;> omega
    have hc : c.2 ≤ (pickMax x c).2 := by unfold pickMax; split <;> omega
    have hacc : (pickMax x c).2 ≤ (t.foldl pickMax (pickMax x c)).2 :=
      ih (pickMax x c) (pickMax x c) (by simp)
    rcases List.mem_cons.mp hp with h1 | h1
    · subst h1; omega
    rcases List.mem_cons.mp h1 with h2 | h2
    · subst h2; omega
    · exact ih (pickMax x c) p (List.mem_cons_of_mem _ h2)

theorem pickMax_foldl_find (l : List (String × Nat)) :
    ∀ x, (x :: l).find? (fun p => p.2 == (l.foldl pickMax x).2) =
      some (l.foldl pickMax x) := by
  induction l with
  | nil =>
    intro x
    simp [List.find?]
  | cons c t ih =>
    intro x
    simp only [List.foldl_cons]
    by_cases hcx : c.2 > x.2
    · have hpk : pickMax x c = c := by unfold pickMax; rw [if_pos hcx]
      rw [hpk]
      have hle : c.2 ≤ (t.foldl pickMax c).2 := pickMax_foldl_le t c c (by simp)
      have hxf : (x.2 == (t.foldl pickMax c).2) = false := by
        rw [beq_eq_false_iff_ne]
        omega
      simp only [List.find?_cons, hxf]
      exact ih c
    · have hpk : pickMax x c = x := by unfold pickMax; rw [if_neg hcx]
      rw [hpk]
      have hr := ih x
      by_cases hx : x.2 = (t.foldl pickMax x).2
      · have hxb : (x.2 == (t.foldl pickMax x).2) = true := beq_iff_eq.mpr hx
        simp only [List.find?_cons, hxb] at hr ⊢
        exact hr
      · have hxle : x.2 ≤ (t.foldl pickMax x).2 := pickMax_foldl_le t x x (by simp)
        have hxb : (x.2 == (t.foldl pickMax x).2) = false := beq_eq_false_iff_ne.mpr hx
        have hcb : (c.2 == (t.foldl pickMax x).2) = false := by
          rw [beq_eq_false_iff_ne]
          omega
        simp only [List.find?_cons, hxb, hcb] at hr ⊢
        exact hr

theorem foldrMax_le (l : List Nat) (m : Nat) (h : ∀ a ∈ l, a ≤ m) :
    l.foldr Nat.max 0 ≤ m := by
  induction l with
  | nil => simp
  | cons a t ih =>
    simp only [List.foldr_cons]
    exact Nat.max_le.mpr ⟨h a (by simp), ih (fun b hb => h b (by simp [hb]))⟩

theorem le_foldrMax (l : List Nat) (a : Nat) (h : a ∈ l) :
    a ≤ l.foldr Nat.max 0 := by
  induction l with
  | nil => simp at h
  | cons b t ih =>
    simp only [List.foldr_cons]
    rcases List.mem_cons.mp h with h1 | h1
    · subst h1; exact Nat.le_max_left _ _
    · exact le_trans (ih h1) (Nat.le_max_right _ _)

/-- C4: for every file-name set, `_detect_application_type` returns a
pattern whose indicator-substring score is maximal, and on equal maximal
nonzero scores the pattern registered earlier in the catalog wins (it is
the first entry of the score list attaining the maximum); when the
maximal score is zero it returns the sentinel `"generic"`. -/
theorem classify_max_first_tiebreak (files : List String) :
    (maxScore files = 0 → detectApplicationType files = "generic") ∧
    (maxScore files ≠ 0 →
      (scoreList files).find? (fun p => p.2 == maxScore files) =
        some (detectApplicationType files, maxScore files)) := by
  obtain ⟨x, xs, hxl⟩ : ∃ x xs, scoreList files = x :: xs := ⟨_, _, rfl⟩
  have hdet : detectApplicationType files =
      (if (xs.foldl pickMax x).2 > 0 then (xs.foldl pickMax x).1 else "generic") := by
    unfold detectApplicationType
    rw [hxl]
  have hmem : xs.foldl pickMax x ∈ x :: xs := pickMax_foldl_mem xs x
  have hle : ∀ p ∈ x :: xs, p.2 ≤ (xs.foldl pickMax x).2 :=
    fun p hp => pickMax_foldl_le xs x p hp
  have hmax : maxScore files = (xs.foldl pickMax x).2 := by
    unfold maxScore
    rw [hxl]
    apply le_antisymm
    · apply foldrMax_le
      intro a ha
      rcases List.mem_map.mp ha with ⟨p, hp, rfl⟩
      exact hle p hp
    · exact le_foldrMax _ _ (List.mem_map.mpr ⟨xs.foldl pickMax x, hmem, rfl⟩)
  constructor
  · intro h0
    rw [hmax] at h0
    rw [hdet, h0]
    simp
  · intro hne
    rw [hmax] at hne
    have hpos : (xs.foldl pickMax x).2 > 0 := Nat.pos_of_ne_zero hne
    rw [hdet, if_pos hpos, hxl, hmax]
    exact pickMax_foldl_find xs x

/-- Witness for C4 at the concrete file set `["package.json"]` (two
patterns tie with score 1; the earlier-registered `node_js` wins). -/
theorem classify_witness :
    maxScore ["package.json"] ≠ 0 ∧
    (scoreList ["package.json"]).find? (fun p => p.2 == maxScore ["package.json"]) =
      some (detectApplicationType ["package.json"], maxScore ["package.json"]) :=
  ⟨by decide, (classify_max_first_tiebreak ["package.json"]).2 (by decide)⟩

/-! ## Lemmas about the Dockerfile line loop -/

theorem stepLine_has_dockerfile {a a2 : DockerAnalysis} {l : String}
    (h : stepLine a l = some a2) : a2.has_dockerfile = a.has_dockerfile := by
  unfold stepLine at h
  split at h
  · split at h
    · simp at h
    · rw [Option.some.injEq] at h
      subst h
      rfl
  · split at h
    · split at h
      · simp at h
      · split at h
        · simp at h
        · rw [Option.some.injEq] at h
          subst h
          rfl
    · rw [Option.some.injEq] at h
      subst h
      rfl

theorem parseDockerLines_has_dockerfile (ls : List String) :
    ∀ a : DockerAnalysis, (parseDockerLines ls a).has_dockerfile = a.has_dockerfile := by
  induction ls with
  | nil => intro a; rfl
  | cons l t ih =>
    intro a
    unfold parseDockerLines
    cases hstep : stepLine a l with
    | none => rfl
    | some a2 => rw [ih a2, stepLine_has_dockerfile hstep]

theorem parseDockerLines_stops (line : String)
    (hstop : ∀ a, stepLine a line = none) :
    ∀ (pre post : List String) (a : DockerAnalysis),
      parseDockerLines (pre ++ line :: post) a = parseDockerLines pre a := by
  intro pre
  induction pre with
  | nil =>
    intro post a
    simp only [List.nil_append]
    unfold parseDockerLines
    rw [hstop a]
  | cons x xs ih =>
    intro post a
    simp only [List.cons_append]
    unfold parseDockerLines
    cases hs : stepLine a x with
    | none => rfl
    | some a2 => exact ih post a2

/-- C8: for every Dockerfile whose read succeeds, `_analyze_dockerfile`
reports `has_dockerfile = true` even when a later `EXPOSE` line carries a
malformed (non-integer) port token: the line loop stops silently at that
line, keeping the base image and ports captured before it, and the
all-empty absent-recipe result arises only when the read itself fails. -/
theorem dockerfile_stops_on_malformed_port (content : String) (pre post : List String)
    (line tok : String)
    (hsplit : splitOnChar '\n' content = pre ++ line :: post)
    (hfrom : strStarts (pyStrip line) "FROM" = false)
    (hexp : strStarts (pyStrip line) "EXPOSE" = true)
    (htok : (splitWs line)[1]? = some tok)
    (hint : pyInt tok = none) :
    (analyzeDockerfile (some content)).has_dockerfile = true ∧
    analyzeDockerfile (some content) = parseDockerLines pre foundDockerInit ∧
    analyzeDockerfile none = emptyDockerAnalysis := by
  have hstop : ∀ a, stepLine a line = none := by
    intro a
    simp [stepLine, hfrom, hexp, htok, hint]
  have h2 : analyzeDockerfile (some content) = parseDockerLines pre foundDockerInit := by
    show parseDockerLines (splitOnChar '\n' content) foundDockerInit = _
    rw [hsplit]
    exact parseDockerLines_stops line hstop pre post foundDockerInit
  refine ⟨?_, h2, rfl⟩
  rw [h2, parseDockerLines_has_dockerfile]
  rfl

/-- Witness for C8: a Dockerfile whose third line is `EXPOSE abc`; the
base image and the port 80 captured before it survive, while `EXPOSE 90`
after it is dropped. -/
theorem dockerfile_stops_witness :
    splitOnChar '\n' "FROM node:18\nEXPOSE 80\nEXPOSE abc\nEXPOSE 90" =
      ["FROM node:18", "EXPOSE 80"] ++ "EXPOSE abc" :: ["EXPOSE 90"] ∧
    strStarts (pyStrip "EXPOSE abc") "FROM" = false ∧
    strStarts (pyStrip "EXPOSE abc") "EXPOSE" = true ∧
    (splitWs "EXPOSE abc")[1]? = some "abc" ∧
    pyInt "abc" = none ∧
    parseDockerLines ["FROM node:18", "EXPOSE 80"] foundDockerInit =
      { has_dockerfile := true
        base_image := some "node:18"
        exposed_ports := [80]
        custom_dockerfile := true } ∧
    ((analyzeDockerfile (some "FROM node:18\nEXPOSE 80\nEXPOSE abc\nEXPOSE 90")).has_dockerfile = true ∧
     analyzeDockerfile (some "FROM node:18\nEXPOSE 80\nEXPOSE abc\nEXPOSE 90") =
       parseDockerLines ["FROM node:18", "EXPOSE 80"] foundDockerInit ∧
     analyzeDockerfile none = emptyDockerAnalysis) :=
  ⟨by decide, by decide, by decide, by decide, by decide, by decide,
    dockerfile_stops_on_malformed_port
      "FROM node:18\nEXPOSE 80\nEXPOSE abc\nEXPOSE 90"
      ["FROM node:18", "EXPOSE 80"] ["EXPOSE 90"] "EXPOSE abc" "abc"
      (by decide) (by decide) (by decide) (by decide) (by decide)⟩

/-- C1: with the clients as `__init__`/`setup_clients` actually leave them
(the missing `os` import makes `setup_clients` fail, so `github_client`
stays `None`), every request that carries a `repository_url` gets the
error-shaped response, never the success shape: `analyze_repository`
raises on its first use of the client. -/
theorem predict_with_url_is_error (req : Request) (url : String)
    (h : req.repositoryUrl = some url) :
    isErrorShaped (predict initModel req).1 = true := by
  unfold predict
  rw [h]
  by_cases hu : url = ""
  · simp [hu, errorResp, isErrorShaped]
  · simp only [if_neg hu]
    rfl

/-- Witness for C1 at a concrete request carrying a repository URL. -/
theorem predict_with_url_witness :
    urlRequest.repositoryUrl = some "https://github.com/acme/app" ∧
    isErrorShaped (predict initModel urlRequest).1 = true :=
  ⟨rfl, predict_with_url_is_error urlRequest "https://github.com/acme/app" rfl⟩

/-- C7: for every request instance lacking `repository_url`, `predict`
returns the uniform error response (status error, message, the fixed
recommendation list) for any client state, and invokes no collaborator
(the event trace is empty). -/
theorem predict_missing_url_uniform_error (st : ModelState) (req : Request)
    (h : req.repositoryUrl = none) :
    predict st req =
      (ModelResponse.error "repository_url is required"
        ["Check repository URL and permissions"], []) := by
  unfold predict
  rw [h]
  rfl

/-- Witness for C7 at the all-defaults request. -/
theorem predict_missing_url_witness :
    emptyRequest.repositoryUrl = none ∧
    predict initModel emptyRequest =
      (ModelResponse.error "repository_url is required"
        ["Check repository URL and permissions"], []) :=
  ⟨rfl, predict_missing_url_uniform_error initModel emptyRequest rfl⟩

/-- C10: when the payload's `instances` key is missing or maps to the
empty list, the server-level `predict` returns the bare
`{"error": "No instances provided"}` object, which has no `status` and no
`recommendations` field — a shape different from the documented uniform
error response. -/
theorem server_predict_empty_instances (st : ModelState)
    (instances : Option (List Request))
    (h : instances = none ∨ instances = some []) :
    serverPredict st instances = [("error", JVal.str "No instances provided")] ∧
    (serverPredict st instances).lookup "status" = none ∧
    (serverPredict st instances).lookup "recommendations" = none ∧
    (serverPredict st instances).lookup "error" = some (JVal.str "No instances provided") := by
  have h1 : serverPredict st instances = [("error", JVal.str "No instances provided")] := by
    rcases h with h | h <;> subst h <;> rfl
  refine ⟨h1, ?_, ?_, ?_⟩ <;> rw [h1] <;> rfl

/-- Witness for C10 at a payload with the `instances` key missing. -/
theorem server_predict_empty_witness :
    ((none : Option (List Request)) = none ∨ (none : Option (List Request)) = some []) ∧
    (serverPredict initModel none = [("error", JVal.str "No instances provided")] ∧
     (serverPredict initModel none).lookup "status" = none ∧
     (serverPredict initModel none).lookup "recommendations" = none ∧
     (serverPredict initModel none).lookup "error" = some (JVal.str "No instances provided")) :=
  ⟨Or.inl rfl, server_predict_empty_instances initModel none (Or.inl rfl)⟩

/-- C2 counterexample: computing the resource estimate for a
machine-learning analysis above the size threshold mutates the catalog in
place — `base_resources` aliases the `machine_learning` pattern's declared
profile, whose memory fields end up overwritten (request `256Mi`, limit
`1Gi`), so the catalog is not left unchanged. -/
theorem catalog_mutated_by_ml_sizing :
    catalogAfterCalc mlAnalysis ≠ deploymentPatterns ∧
    ((dictGet (catalogAfterCalc mlAnalysis) "machine_learning").map (fun p => p.resources)) =
      some (some { requests := { cpu := "500m", memory := "256Mi" }
                   limits := { cpu := "2000m", memory := "1Gi" } }) := by decide

/-- C3 counterexample: for the `machine_learning` base profile the
repository-size rule *decreases* resource fields — the memory request
drops from `1Gi` to `256Mi` and the memory limit from `4Gi` to `1Gi` —
so escalation is not monotonic for every base profile. -/
theorem ml_escalation_decreases_memory :
    memMi ((calculateResources mlAnalysis mlPattern).requests.memory) <
      memMi ((mlPattern.resources.getD defaultResources).requests.memory) ∧
    memMi ((calculateResources mlAnalysis mlPattern).limits.memory) <
      memMi ((mlPattern.resources.getD defaultResources).limits.memory) := by decide

/-- C5: synthesis is not total. For the catalog archetype `go` (which the
classifier returns for `{go.mod, main.go}`) with no existing Dockerfile,
`generate_deployment_config` raises: the dockerfile template dict
eagerly evaluates `pattern['start_command'].split()[1]` for every
template with the resolved pattern, and the `go` start command `./app`
has only one token (`IndexError`). -/
theorem go_synthesis_fails :
    detectApplicationType ["go.mod", "main.go"] = "go" ∧
    (dictGet deploymentPatterns "go").isSome = true ∧
    generateDeploymentConfig goAnalysis "default" "auto" = none := by decide

/-- C6: end-to-end scenario A — the file set `{package.json, server.js}`
with no language tag classifies as `node_js`, and the synthesized
workload manifest has container port 3000 with readiness and liveness
probes pointed at `/health`. -/
theorem scenario_a_node_js :
    detectApplicationType ["package.json", "server.js"] = "node_js" ∧
    ((generateDeploymentConfig scenarioAAnalysis "default" "auto").map
        (fun c => (c.deployment.containerPort, c.deployment.readinessPath,
          c.deployment.livenessPath))) = some (3000, "/health", "/health") := by decide

/-- C2 amended: for every analysis whose archetype is not
`machine_learning` (the one catalog entry with a declared resource
profile), computing the resource estimate leaves every archetype
definition in the catalog unchanged — the escalation then works on a
fresh default dict, not on catalog state. -/
theorem catalog_unchanged_for_non_ml (a : Analysis)
    (h : a.applicationType ≠ "machine_learning") :
    catalogAfterCalc a = deploymentPatterns := by
  have hk : aliasedKey a.applicationType ≠ "machine_learning" := by
    unfold aliasedKey
    split
    · exact h
    · decide
  have hkm : ¬ ("machine_learning" = aliasedKey a.applicationType) := fun hh => hk hh.symm
  unfold catalogAfterCalc
  simp only [deploymentPatterns, nodeJsPattern, List.map, patternAfterCalc, ite_self,
    if_neg hkm]

/-- Witness for the amended C2 at a concrete Go analysis. -/
theorem catalog_unchanged_witness :
    goAnalysis.applicationType ≠ "machine_learning" ∧
    catalogAfterCalc goAnalysis = deploymentPatterns :=
  ⟨by decide, catalog_unchanged_for_non_ml goAnalysis (by decide)⟩

/-- C3 amended: for every pattern that declares no resource profile (so
the sizing starts from the fixed default profile), the two escalation
rules never decrease any resource field, and no field changes unless its
rule's predicate holds. (The `machine_learning` declared profile, by
contrast, is decreased — see the counterexample.) -/
theorem escalation_monotone_default_profile (a : Analysis) (p : Pattern)
    (hp : p.resources = none) :
    (cpuMilli defaultResources.requests.cpu ≤ cpuMilli (calculateResources a p).requests.cpu ∧
     memMi defaultResources.requests.memory ≤ memMi (calculateResources a p).requests.memory ∧
     cpuMilli defaultResources.limits.cpu ≤ cpuMilli (calculateResources a p).limits.cpu ∧
     memMi defaultResources.limits.memory ≤ memMi (calculateResources a p).limits.memory) ∧
    (¬ a.size > 100000 →
      (calculateResources a p).requests.memory = defaultResources.requests.memory ∧
      (calculateResources a p).limits.memory = defaultResources.limits.memory) ∧
    (¬ a.dependencies.dependencies.length > 50 →
      (calculateResources a p).requests.cpu = defaultResources.requests.cpu ∧
      (calculateResources a p).limits.cpu = defaultResources.limits.cpu) := by
  by_cases hs : a.size > 100000 <;> by_cases hd : a.dependencies.dependencies.length > 50 <;>
    simp [calculateResources, hp, hs, hd] <;> decide

/-- Witness for the amended C3 at the `python_flask` pattern with a large
repository. -/
theorem escalation_monotone_witness :
    flaskPattern.resources = none ∧
    memMi defaultResources.requests.memory ≤
      memMi (calculateResources flaskAnalysis flaskPattern).requests.memory :=
  ⟨by decide,
    ((escalation_monotone_default_profile flaskAnalysis flaskPattern (by decide)).1).2.1⟩

/-- C9: when the classified archetype id is not a key of the catalog (in
particular `"generic"`), the synthesized configuration uses the `node_js`
definition verbatim: container port 3000, PORT env value `"3000"`, health
path `/health` on both probes, and — when no Dockerfile exists — the
`node_js` Dockerfile template with base image `node:18-alpine`. -/
theorem fallback_resolves_to_node_js (a : Analysis) (ns dt : String)
    (h : dictGet deploymentPatterns a.applicationType = none)
    (hd : a.dockerAnalysis.has_dockerfile = false) :
    ((generateDeploymentConfig a ns dt).map
        (fun c => (c.deployment.containerPort, c.deployment.envPort,
          c.deployment.readinessPath, c.deployment.livenessPath, c.dockerfile))) =
      some (3000, "3000", "/health", "/health", some nodeJsDockerfileText) := by
  have h' : deploymentPatterns.find? (fun kv => kv.1 == a.applicationType) = none := by
    unfold dictGet at h
    exact Option.map_eq_none'.mp h
  have hall := List.find?_eq_none.mp h'
  have h1 : ("node_js" == a.applicationType) = false := by
    have := hall ("node_js", nodeJsPattern) (by decide)
    simpa using this
  have h2 : ("python_flask" == a.applicationType) = false := by
    have := hall ("python_flask", flaskPattern) (by decide)
    simpa using this
  have h3 : ("react" == a.applicationType) = false := by
    have := hall ("react", (dictGet deploymentPatterns "react").getD nodeJsPattern) (by decide)
    simpa using this
  have h7 : ("machine_learning" == a.applicationType) = false := by
    have := hall ("machine_learning", mlPattern) (by decide)
    simpa using this
  have hml : ¬ (a.applicationType = "machine_learning") := by
    intro hh
    rw [hh] at h7
    simp at h7
  have hsw : splitWs nodeJsPattern.startCommand = ["npm", "start"] := by decide
  have hgen : generateDockerfile a.applicationType nodeJsPattern = some nodeJsDockerfileText := by
    simp only [generateDockerfile, hsw]
    simp only [List.find?, h1, h2, h3]
    decide
  simp only [generateDeploymentConfig, h, Option.getD_none, hd, Bool.false_eq_true,
    if_false, hgen, Option.map_some']
  simp only [generateDeploymentYaml, hml, if_false]
  decide

/-- Witness for C9 at an analysis classified `generic` (empty file set). -/
theorem fallback_witness :
    dictGet deploymentPatterns genericAnalysis.applicationType = none ∧
    genericAnalysis.dockerAnalysis.has_dockerfile = false ∧
    ((generateDeploymentConfig genericAnalysis "default" "auto").map
        (fun c => (c.deployment.containerPort, c.deployment.envPort,
          c.deployment.readinessPath, c.deployment.livenessPath, c.dockerfile))) =
      some (3000, "3000", "/health", "/health", some nodeJsDockerfileText) :=
  ⟨by decide, by decide,
    fallback_resolves_to_node_js genericAnalysis "default" "auto" (by decide) (by decide)⟩
